import Mathlib

/-!
# gulp-watchify: shallow embedding and verification

Shallow embedding of the gulp-watchify plugin (the `GulpWatchify` and
`ReBundle` transform streams, the constructor's option handling, and the
debounce machinery of `_handleUpdate`), translated from the repository's
source (the fullest version of the module, which carries the
`registerAsync`/`finishIfResolved` completion accounting, the
`skipUpdateError` option and the 400 ms default rebundle delay).

JavaScript-specific conventions used below:
* an options field can be `undefined`, a genuine boolean, or some other
  value with its own truthiness; `JOpt` captures exactly that, and
  `JOpt.orBool` is the idiom `(typeof o === 'boolean') ? o : dflt`;
* a vinyl file is modelled by its `path`/`base`/`cwd` strings; the guard
  `!srcFile || !srcFile.path` means the chunk is absent or its path is
  falsy (the empty string);
* the external bundler's callback receives `(err, source)`; we model one
  invocation's outcome as `Except String String`;
* `done(err)` / `done()` of a transform stream is the `Done` type, and a
  `PluginError('gulp-watchify', err)` is `Done.pluginError "gulp-watchify" err`.
-/

/-- An option value as JavaScript sees it: `undefined`, a real boolean, or
any other value carrying only its truthiness. -/
inductive JOpt where
  | undef
  | jbool (b : Bool)
  | jother (truthy : Bool)
deriving DecidableEq, Repr

/-- JavaScript truthiness of an option value. -/
def JOpt.isTruthy : JOpt → Bool
  | .undef => false
  | .jbool b => b
  | .jother t => t

/-- The idiom `(typeof o === 'boolean') ? o : dflt`. -/
def JOpt.orBool (o : JOpt) (dflt : Bool) : Bool :=
  match o with
  | .jbool b => b
  | _ => dflt

/-- A vinyl source file as far as the plugin reads it. -/
structure SrcFile where
  path : String
  base : String
  cwd : String
deriving DecidableEq, Repr

/-- The truthiness test `!srcFile.path`: only the empty string is falsy. -/
def SrcFile.hasPath (f : SrcFile) : Bool := f.path ≠ ""

/-- The file object produced for a finished bundle: a buffer of the
bundled source plus the entry file's base, cwd and path. -/
structure BundleFile where
  contentsBuf : String
  base : String
  cwd : String
  path : String
deriving DecidableEq, Repr

/-- `AbstractBundleStream.prototype._createBundleFile`: wrap the bundled
source in a new file that inherits base, cwd and path from the entry file. -/
def createBundleFile (srcFile : SrcFile) (source : String) : BundleFile :=
  { contentsBuf := source
  , base := srcFile.base
  , cwd := srcFile.cwd
  , path := srcFile.path }

/-- Outcome handed to a transform stream's `done` callback. -/
inductive Done where
  | ok
  | pluginError (plugin : String) (err : String)
deriving DecidableEq, Repr

/-- Which bundler library backs a stream. -/
inductive BundlerKind where
  | watchify
  | browserify
  | custom (id : Nat)
deriving DecidableEq, Repr

/-- The options object accepted by the `GulpWatchify` constructor. -/
structure GWOptions where
  watch : JOpt := .undef
  verbose : JOpt := .undef
  primeCache : JOpt := .undef
  shareWatchers : JOpt := .undef
  rebundle : JOpt := .undef
  skipUpdateError : JOpt := .undef
  rebundleDelay : Option Nat := none
  watcherMaxListeners : Option Nat := none
  Bundler : Option BundlerKind := none
deriving DecidableEq, Repr

/-- Calling the module's export with no argument: `options = {}`. -/
def GWOptions.default : GWOptions := {}

/-- `options.rebundleDelay || 400`: `undefined` and `0` are falsy. -/
def effectiveRebundleDelay (d : Option Nat) : Nat :=
  match d with
  | none => 400
  | some 0 => 400
  | some n => n

/-- `watcher.setMaxListeners(this._watcherMaxListeners || 50)`. -/
def effectiveMaxListeners (m : Option Nat) : Nat :=
  match m with
  | none => 50
  | some 0 => 50
  | some n => n

/-- The `GulpWatchify` instance fields fixed by the constructor, together
with the reference identities of the shared cache objects and a heap
giving each reference its contents (the plugin allocates `{}` for the
dependency cache, the package cache and the watchers table when the
`primeCache` / `shareWatchers` options default to or are set true). -/
structure GWState where
  watch : Bool
  verbose : Bool
  rebundleOn : Bool
  skipUpdateError : Bool
  rebundleDelay : Nat
  watcherMaxListeners : Option Nat
  bundler : BundlerKind
  depsCacheRef : Option Nat
  packageCacheRef : Option Nat
  watchersRef : Option Nat
  /-- heap cell contents for each allocated reference id -/
  heap : List (Nat × List (String × String))
  /-- `this._bundlers`: registry from entry path to created bundler id -/
  bundlers : List (String × Nat)
  nextBundlerId : Nat
deriving DecidableEq, Repr

/-- The `GulpWatchify` constructor (`function GulpWatchify(options)`),
translated clause by clause. Reference ids 0, 1 and 2 name the three
objects allocated once here; an unset option leaves the corresponding
field absent (`none`). -/
def mkGulpWatchify (o : GWOptions) : GWState :=
  let primeCache := o.primeCache.orBool true
  let shareWatchers := o.shareWatchers.orBool true
  { watch := o.watch.orBool true
  , verbose := o.verbose.orBool true
  , rebundleOn := o.rebundle.orBool true
  , skipUpdateError := o.skipUpdateError.orBool true
  , rebundleDelay := effectiveRebundleDelay o.rebundleDelay
  , watcherMaxListeners := o.watcherMaxListeners
  , bundler :=
      match o.Bundler with
      | some b => b
      | none => if o.watch.isTruthy then .watchify else .browserify
  , depsCacheRef := if primeCache then some 0 else none
  , packageCacheRef := if primeCache then some 1 else none
  , watchersRef := if shareWatchers then some 2 else none
  , heap :=
      (if primeCache then [(0, ([] : List (String × String))), (1, [])] else [])
        ++ (if shareWatchers then [(2, ([] : List (String × String)))] else [])
  , bundlers := []
  , nextBundlerId := 0 }

/-- What the plugin passes into and does to a bundler it creates in
`_transform`: the option references handed over, the entry file added,
and the bundler function used. -/
structure CreatedBundler where
  id : Nat
  kind : BundlerKind
  cacheRef : Option Nat
  pkgCacheRef : Option Nat
  packageCacheRef : Option Nat
  watchersRef : Option Nat
  added : SrcFile
deriving DecidableEq, Repr

/-- Result of one `GulpWatchify.prototype._transform` call: the `done`
outcome, the files pushed downstream, the bundler created (if any), and
the instance state afterwards. -/
structure GWTransformResult where
  done : Done
  pushed : List BundleFile
  created : Option CreatedBundler
  state : GWState
deriving DecidableEq, Repr

/-- Update an association list at a key (`this._bundlers[srcFile.path] = bundler`). -/
def assocSet (l : List (String × Nat)) (k : String) (v : Nat) : List (String × Nat) :=
  match l with
  | [] => [(k, v)]
  | (k', v') :: rest => if k' = k then (k, v) :: rest else (k', v') :: assocSet rest k v

/-- `GulpWatchify.prototype._transform`, with the external bundler's
single `bundle(firstBundleCallback)` outcome supplied as `bundleResult`.
A falsy chunk or a chunk with a falsy path is rejected with a plugin
error before any bundler is created; otherwise a bundler is built over
the shared cache references, registered under the entry path, and the
first bundle's outcome decides whether exactly one bundle file is pushed
(`source` wrapped by `_createBundleFile`) or the error is forwarded. -/
def gwTransform (st : GWState) (chunk : Option SrcFile)
    (bundleResult : Except String String) : GWTransformResult :=
  match chunk with
  | none =>
      { done := .pluginError "gulp-watchify" "Expected a source file with a path"
      , pushed := [], created := none, state := st }
  | some srcFile =>
      if srcFile.hasPath then
        let b : CreatedBundler :=
          { id := st.nextBundlerId
          , kind := st.bundler
          , cacheRef := st.depsCacheRef
          , pkgCacheRef := st.packageCacheRef
          , packageCacheRef := st.packageCacheRef
          , watchersRef := st.watchersRef
          , added := srcFile }
        let st' := { st with
          bundlers := assocSet st.bundlers srcFile.path st.nextBundlerId
          , nextBundlerId := st.nextBundlerId + 1 }
        match bundleResult with
        | .error e =>
            { done := .pluginError "gulp-watchify" e
            , pushed := [], created := some b, state := st' }
        | .ok source =>
            { done := .ok
            , pushed := [createBundleFile srcFile source]
            , created := some b, state := st' }
      else
        { done := .pluginError "gulp-watchify" "Expected a source file with a path"
        , pushed := [], created := none, state := st }

/-- Result of one `ReBundle.prototype._transform` bundle callback. -/
structure RBTransformResult where
  done : Done
  pushed : List BundleFile
  /-- whether `finishIfResolved` ran for this invocation -/
  finishCalled : Bool
  /-- whether the error branch logged the failure instead of failing -/
  loggedError : Bool
deriving DecidableEq, Repr

/-- `ReBundle.prototype._transform`'s bundle callback: on error, forward a
plugin error when `skipUpdateError` is false, otherwise log and complete
without error; on success push exactly one bundle file. `finishIfResolved`
runs on every path except the fatal one. -/
def rbTransform (skipUpdateError : Bool) (srcFile : SrcFile)
    (bundleResult : Except String String) : RBTransformResult :=
  match bundleResult with
  | .error e =>
      if !skipUpdateError then
        { done := .pluginError "gulp-watchify" e
        , pushed := [], finishCalled := false, loggedError := false }
      else
        { done := .ok
        , pushed := [], finishCalled := true, loggedError := true }
  | .ok source =>
      { done := .ok
      , pushed := [createBundleFile srcFile source]
      , finishCalled := true, loggedError := false }

/-- Running several writes through one `GulpWatchify` stream: each write
carries the chunk handed to `_transform` and the outcome of the bundler's
first `bundle` call for it. Returns the final state and every write's
transform result, in order. -/
def gwRunWrites (st : GWState) :
    List (Option SrcFile × Except String String) → GWState × List GWTransformResult
  | [] => (st, [])
  | (chunk, r) :: rest =>
      let res := gwTransform st chunk r
      let (st', results) := gwRunWrites res.state rest
      (st', res :: results)

/-! ## The debounce machinery of `GulpWatchify.prototype._handleUpdate`

`_handleUpdate` is modelled as a state machine driven by timestamped
update events. Pending `setTimeout` handles live in `timers` (a list, so
that the code's clear-before-schedule discipline is a provable property
rather than a modelling assumption); `storedTimeout` is the instance
field `_rebundleTimeout`. Between consecutive updates the runtime fires
every pending timer whose deadline has passed (`fireDue`); an update
arriving exactly at a deadline is processed after the timer fires, so an
update joins the current stream precisely when it arrives strictly
within `delay` of the previous one. The observable actions (stream
creation, the `'rebundle'` emission, writes, and timeout firings) are
recorded in `log`. -/

/-- A pending `setTimeout` handle: its identity, its fire time, and the
ReBundle stream its callback closes. -/
structure DbTimer where
  tid : Nat
  deadline : Nat
  streamId : Nat
deriving DecidableEq, Repr

/-- Observable actions of the update-handling machinery. -/
inductive DbLog where
  | createdStream (id : Nat)
  | emittedRebundle (id : Nat)
  | wroteTo (id : Nat) (f : SrcFile)
  | timerFired (id : Nat)
deriving DecidableEq, Repr

/-- State of the update-handling machinery of one `GulpWatchify` instance. -/
structure DbState where
  rebundleOn : Bool
  delay : Nat
  curStream : Option Nat
  storedTimeout : Option Nat
  timers : List DbTimer
  nextStreamId : Nat
  nextTimerId : Nat
  log : List DbLog
deriving DecidableEq, Repr

/-- Fire every pending timer whose deadline has been reached at time `t`:
its callback runs `finishIfResolved` on its stream and nulls out
`_rebundleStream`. -/
def fireDue (t : Nat) (s : DbState) : DbState :=
  let due := s.timers.filter (fun tm => decide (tm.deadline ≤ t))
  { s with
    timers := s.timers.filter (fun tm => decide (¬ tm.deadline ≤ t))
  , curStream := if due.isEmpty then s.curStream else none
  , log := s.log ++ due.map (fun tm => DbLog.timerFired tm.streamId) }

/-- `clearTimeout(self._rebundleTimeout)`: cancel the stored handle if it
is still pending (a no-op otherwise). -/
def clearStoredTimeout (s : DbState) : DbState :=
  match s.storedTimeout with
  | none => s
  | some tid => { s with timers := s.timers.filter (fun tm => decide (tm.tid ≠ tid)) }

/-- `self._rebundleTimeout = setTimeout(..., self._rebundleDelay || 400)`:
schedule a fresh close timeout for stream `sid` and remember its handle. -/
def scheduleClose (t : Nat) (sid : Nat) (s : DbState) : DbState :=
  { s with
    timers := s.timers ++ [⟨s.nextTimerId, t + s.delay, sid⟩]
  , storedTimeout := some s.nextTimerId
  , nextTimerId := s.nextTimerId + 1 }

/-- `GulpWatchify.prototype._handleUpdate` at time `t` for entry file `f`
(after the runtime has fired any due timer): return immediately when the
rebundle option is off; otherwise cancel the stored timeout, reuse the
current ReBundle stream or create one (emitting the rebundle
notification), write the file to it, and schedule a new close timeout. -/
def handleUpdate (t : Nat) (f : SrcFile) (s0 : DbState) : DbState :=
  let s1 := fireDue t s0
  if s1.rebundleOn then
    let s2 := clearStoredTimeout s1
    match s2.curStream with
    | some sid =>
        scheduleClose t sid { s2 with log := s2.log ++ [DbLog.wroteTo sid f] }
    | none =>
        let sid := s2.nextStreamId
        let s3 := { s2 with
          curStream := some sid
        , nextStreamId := sid + 1
        , log := s2.log ++ [DbLog.createdStream sid, DbLog.emittedRebundle sid] }
        scheduleClose t sid { s3 with log := s3.log ++ [DbLog.wroteTo sid f] }
  else s1

/-- The update machinery of a freshly constructed instance. -/
def initDebounce (g : GWState) : DbState :=
  { rebundleOn := g.rebundleOn
  , delay := g.rebundleDelay
  , curStream := none
  , storedTimeout := none
  , timers := []
  , nextStreamId := 0
  , nextTimerId := 0
  , log := [] }

/-- Process a chronological list of timestamped update events. -/
def runUpdates (s : DbState) : List (Nat × SrcFile) → DbState
  | [] => s
  | (t, f) :: us => runUpdates (handleUpdate t f s) us

/-- Modelled from the spec: the log the burst description predicts after
the first event of a burst on stream `sid` whose last event so far was at
`lastT` — an update strictly within `delay` of the previous one is
written to the same stream, and an update at or past the deadline first
sees the old stream's timeout fire, then a fresh stream created,
announced, and written to. -/
def specBurstCont (delay sid lastT : Nat) : List (Nat × SrcFile) → List DbLog
  | [] => []
  | (t, f) :: rest =>
      if t < lastT + delay then
        DbLog.wroteTo sid f :: specBurstCont delay sid t rest
      else
        DbLog.timerFired sid :: DbLog.createdStream (sid + 1)
          :: DbLog.emittedRebundle (sid + 1) :: DbLog.wroteTo (sid + 1) f
          :: specBurstCont delay (sid + 1) t rest

/-- Modelled from the spec: the full predicted log — the first update of
all creates and announces stream 0 and writes to it, and the rest follows
the burst discipline of `specBurstCont`. -/
def specBurstLog (delay : Nat) : List (Nat × SrcFile) → List DbLog
  | [] => []
  | (t, f) :: rest =>
      DbLog.createdStream 0 :: DbLog.emittedRebundle 0 :: DbLog.wroteTo 0 f
        :: specBurstCont delay 0 t rest

/-! ## Completion accounting of one `ReBundle` stream

`_unresolvedAsyncs` starts at 1: `_handleUpdate` calls `registerAsync()`
once when it creates the stream, on behalf of the close timeout it will
schedule. Each `_transform` call registers one more before its bundle
callback can run, and `finishIfResolved` decrements and pushes the end
marker exactly when the count reaches zero. The events below are the
calls that touch the counter; the side conditions of `rbStep` (`none`
results) encode what the runtime guarantees: a bundle callback only runs
for a bundle invocation that actually started, and the close timeout of
a given stream fires at most once, because `_handleUpdate` cancels the
previous timeout before scheduling a new one for the same stream and
nulls `_rebundleStream` when it finally fires. -/

/-- Counter-touching events in the life of one `ReBundle` stream. -/
inductive RBEv where
  /-- `_transform` runs for a written file: `bundle()` invoked, `registerAsync()` -/
  | transformStart
  /-- a bundle callback returns successfully: push file, `done()`, `finishIfResolved()` -/
  | bundleOk
  /-- a bundle callback errors with `skipUpdateError` true: log, `done()`, `finishIfResolved()` -/
  | bundleErrSkip
  /-- a bundle callback errors with `skipUpdateError` false: `done(err)` and no `finishIfResolved()` -/
  | bundleErrFatal
  /-- the close timeout fires: `finishIfResolved()` -/
  | timerFire
deriving DecidableEq, Repr

/-- Accounting state of one `ReBundle` stream: the `_unresolvedAsyncs`
counter, whether the close timeout has fired, how many invoked bundles
still await their callback, and how many callbacks took the fatal path. -/
structure RBCount where
  count : Int
  timerFired : Bool
  outstanding : Nat
  fatal : Nat
deriving DecidableEq, Repr

/-- The stream right after `_handleUpdate` constructs it and calls
`registerAsync()` for the pending close timeout. -/
def rbInit : RBCount := { count := 1, timerFired := false, outstanding := 0, fatal := 0 }

/-- One event's effect on the counter. The returned flag records whether
`finishIfResolved` pushed the end marker (`push(null)`) at this event,
i.e. whether its decrement brought `_unresolvedAsyncs` to zero. `none`
marks an event the runtime cannot produce (a callback without a matching
invocation, or a second firing of the stream's close timeout). -/
def rbStep (s : RBCount) : RBEv → Option (RBCount × Bool)
  | .transformStart =>
      some ({ s with count := s.count + 1, outstanding := s.outstanding + 1 }, false)
  | .bundleOk =>
      match s.outstanding with
      | 0 => none
      | o + 1 => some ({ s with count := s.count - 1, outstanding := o }, s.count - 1 = 0)
  | .bundleErrSkip =>
      match s.outstanding with
      | 0 => none
      | o + 1 => some ({ s with count := s.count - 1, outstanding := o }, s.count - 1 = 0)
  | .bundleErrFatal =>
      match s.outstanding with
      | 0 => none
      | o + 1 => some ({ s with outstanding := o, fatal := s.fatal + 1 }, false)
  | .timerFire =>
      if s.timerFired then none
      else some ({ s with count := s.count - 1, timerFired := true }, s.count - 1 = 0)

/-- Run a sequence of counter events from a given state. -/
def rbRunFrom (s : RBCount) : List RBEv → Option RBCount
  | [] => some s
  | e :: evs =>
      match rbStep s e with
      | none => none
      | some (s', _) => rbRunFrom s' evs

/-- A concrete entry file used to instantiate theorems with hypotheses. -/
def sampleFile : SrcFile := { path := "entry.js", base := "/proj", cwd := "/proj" }

/-! ## Theorems -/

/-- C1: for every entry file written to the `GulpWatchify` transform
stream that has a path, `_transform` creates a bundler for that file and,
when its first `bundle` call succeeds, pushes downstream exactly one file
whose contents buffer is the bundler-returned source and whose base, cwd
and path are the entry file's, then calls `done()` with no error. -/
theorem c1_transform_pushes_one_bundle (st : GWState) (f : SrcFile) (source : String)
    (h : f.hasPath = true) :
    (gwTransform st (some f) (.ok source)).done = Done.ok
    ∧ (gwTransform st (some f) (.ok source)).pushed
        = [{ contentsBuf := source, base := f.base, cwd := f.cwd, path := f.path }]
    ∧ (gwTransform st (some f) (.ok source)).created.map CreatedBundler.added = some f := by
  simp [gwTransform, h, createBundleFile]

/-- Witness for C1 at a concrete entry file and source. -/
theorem c1_transform_pushes_one_bundle_witness :
    sampleFile.hasPath = true
    ∧ ((gwTransform (mkGulpWatchify GWOptions.default) (some sampleFile) (.ok "js")).done
          = Done.ok
        ∧ (gwTransform (mkGulpWatchify GWOptions.default) (some sampleFile) (.ok "js")).pushed
          = [{ contentsBuf := "js", base := sampleFile.base, cwd := sampleFile.cwd
             , path := sampleFile.path }]
        ∧ (gwTransform (mkGulpWatchify GWOptions.default) (some sampleFile)
              (.ok "js")).created.map CreatedBundler.added = some sampleFile) :=
  ⟨by decide, c1_transform_pushes_one_bundle (mkGulpWatchify GWOptions.default)
      sampleFile "js" (by decide)⟩

/-- C4: when a rebundle bundle invocation fails, the `ReBundle` transform
forwards a plugin error to `done` exactly when `skipUpdateError` is
false; with `skipUpdateError` true the failure is only logged, `done()`
completes without error (so the stream keeps accepting files), no file is
pushed either way, and `finishIfResolved` still runs. -/
theorem c4_rebundle_error_iff_not_skipped (skip : Bool) (f : SrcFile) (e : String) :
    ((rbTransform skip f (.error e)).done = Done.pluginError "gulp-watchify" e
        ↔ skip = false)
    ∧ (rbTransform skip f (.error e)).pushed = []
    ∧ (rbTransform true f (.error e)).done = Done.ok
    ∧ (rbTransform true f (.error e)).loggedError = true
    ∧ (rbTransform true f (.error e)).finishCalled = true := by
  cases skip <;> simp [rbTransform]

/-- C5: when the first bundle of an entry file fails, `firstBundleCallback`
invokes the transform callback with a plugin error wrapping the bundler's
error and pushes nothing downstream. -/
theorem c5_first_bundle_error_forwarded (st : GWState) (f : SrcFile) (e : String)
    (h : f.hasPath = true) :
    (gwTransform st (some f) (.error e)).done = Done.pluginError "gulp-watchify" e
    ∧ (gwTransform st (some f) (.error e)).pushed = [] := by
  simp [gwTransform, h]

/-- Witness for C5 at a concrete entry file and bundler error. -/
theorem c5_first_bundle_error_forwarded_witness :
    sampleFile.hasPath = true
    ∧ ((gwTransform (mkGulpWatchify GWOptions.default) (some sampleFile)
          (.error "parse error")).done = Done.pluginError "gulp-watchify" "parse error"
        ∧ (gwTransform (mkGulpWatchify GWOptions.default) (some sampleFile)
            (.error "parse error")).pushed = []) :=
  ⟨by decide, c5_first_bundle_error_forwarded (mkGulpWatchify GWOptions.default)
      sampleFile "parse error" (by decide)⟩

/-- C8: with no explicit `Bundler` option, watchify is selected exactly
when the raw `options.watch` value is truthy; and an instance built with
no options at all has its `watch` flag defaulted to `true` yet selects
browserify, because selection reads `options.watch` (then `undefined`)
rather than the defaulted flag. -/
theorem c8_bundler_reads_raw_watch_option (o : GWOptions) (h : o.Bundler = none) :
    ((mkGulpWatchify o).bundler = BundlerKind.watchify ↔ o.watch.isTruthy = true)
    ∧ (mkGulpWatchify GWOptions.default).watch = true
    ∧ (mkGulpWatchify GWOptions.default).bundler = BundlerKind.browserify := by
  refine ⟨?_, by decide, by decide⟩
  cases hw : o.watch.isTruthy <;> simp [mkGulpWatchify, h, hw]

/-- Witness for C8: an instance whose `watch` option is the truthy
non-boolean `1` (so the flag defaults to `true`) selects watchify. -/
theorem c8_bundler_reads_raw_watch_option_witness :
    ({ watch := JOpt.jother true } : GWOptions).Bundler = none
    ∧ (((mkGulpWatchify { watch := JOpt.jother true }).bundler = BundlerKind.watchify
          ↔ ({ watch := JOpt.jother true } : GWOptions).watch.isTruthy = true)
        ∧ (mkGulpWatchify GWOptions.default).watch = true
        ∧ (mkGulpWatchify GWOptions.default).bundler = BundlerKind.browserify) :=
  ⟨by decide, c8_bundler_reads_raw_watch_option { watch := JOpt.jother true } (by decide)⟩

/-- C10: a falsy chunk, or one whose path is falsy, is rejected: `done`
receives the plugin error `'Expected a source file with a path'`, nothing
is pushed, no bundler is created or registered, and the instance state is
unchanged — whatever the bundler would have answered. -/
theorem c10_pathless_write_rejected (st : GWState) (chunk : Option SrcFile)
    (r : Except String String)
    (h : ∀ f, chunk = some f → f.hasPath = false) :
    (gwTransform st chunk r).done
        = Done.pluginError "gulp-watchify" "Expected a source file with a path"
    ∧ (gwTransform st chunk r).pushed = []
    ∧ (gwTransform st chunk r).created = none
    ∧ (gwTransform st chunk r).state = st := by
  cases chunk with
  | none => simp [gwTransform]
  | some f =>
      have hf := h f rfl
      simp [gwTransform, hf]

/-- Witness for C10 at the falsy chunk `undefined`. -/
theorem c10_pathless_write_rejected_witness :
    (∀ f : SrcFile, (none : Option SrcFile) = some f → f.hasPath = false)
    ∧ ((gwTransform (mkGulpWatchify GWOptions.default) none (.ok "js")).done
          = Done.pluginError "gulp-watchify" "Expected a source file with a path"
        ∧ (gwTransform (mkGulpWatchify GWOptions.default) none (.ok "js")).pushed = []
        ∧ (gwTransform (mkGulpWatchify GWOptions.default) none (.ok "js")).created = none
        ∧ (gwTransform (mkGulpWatchify GWOptions.default) none (.ok "js")).state
          = mkGulpWatchify GWOptions.default) :=
  And.intro (fun f hf => by cases hf)
    (c10_pathless_write_rejected (mkGulpWatchify GWOptions.default) none (.ok "js")
      (fun f hf => by cases hf))

/-- One `_transform` call neither touches the heap backing the shared
cache objects nor changes which references the instance holds, and any
bundler it creates receives exactly the instance's current references. -/
lemma gwTransform_frame (st : GWState) (chunk : Option SrcFile)
    (r : Except String String) :
    (gwTransform st chunk r).state.heap = st.heap
    ∧ (gwTransform st chunk r).state.depsCacheRef = st.depsCacheRef
    ∧ (gwTransform st chunk r).state.packageCacheRef = st.packageCacheRef
    ∧ (gwTransform st chunk r).state.watchersRef = st.watchersRef
    ∧ ∀ b, (gwTransform st chunk r).created = some b →
        b.cacheRef = st.depsCacheRef ∧ b.pkgCacheRef = st.packageCacheRef
        ∧ b.packageCacheRef = st.packageCacheRef ∧ b.watchersRef = st.watchersRef := by
  cases chunk with
  | none => simp [gwTransform]
  | some f =>
      by_cases hf : f.hasPath = true
      · cases r <;> simp [gwTransform, hf]
      · simp at hf
        simp [gwTransform, hf]

/-- Across any sequence of writes, the heap and the instance's cache
references are untouched and every created bundler carries the starting
references. -/
lemma gwRunWrites_frame (writes : List (Option SrcFile × Except String String)) :
    ∀ st : GWState,
      (gwRunWrites st writes).1.heap = st.heap
      ∧ ∀ res ∈ (gwRunWrites st writes).2, ∀ b, res.created = some b →
          b.cacheRef = st.depsCacheRef ∧ b.pkgCacheRef = st.packageCacheRef
          ∧ b.packageCacheRef = st.packageCacheRef ∧ b.watchersRef = st.watchersRef := by
  induction writes with
  | nil => intro st; simp [gwRunWrites]
  | cons w rest ih =>
      intro st
      obtain ⟨w1, w2⟩ := w
      have hstep := gwTransform_frame st w1 w2
      have hrest := ih (gwTransform st w1 w2).state
      refine ⟨?_, ?_⟩
      · simpa [gwRunWrites, hstep.1] using hrest.1
      · intro res hres b hb
        simp only [gwRunWrites, List.mem_cons] at hres
        rcases hres with hres | hres
        · subst hres
          exact hstep.2.2.2.2 b hb
        · have := hrest.2 res hres b hb
          rw [hstep.2.1, hstep.2.2.1, hstep.2.2.2.1] at this
          exact this

/-- C7: with the `primeCache` and `shareWatchers` options at their
defaults, the constructor allocates the dependency cache, the package
cache and the watchers table exactly once (references 0, 1 and 2); every
bundler created by any write to the stream is passed those very
references (the package cache both as `pkgCache` and `packageCache`), and
the plugin's own steps leave the heap backing them unchanged. -/
theorem c7_caches_shared_unmodified (o : GWOptions)
    (hp : o.primeCache.orBool true = true) (hw : o.shareWatchers.orBool true = true)
    (writes : List (Option SrcFile × Except String String)) :
    (gwRunWrites (mkGulpWatchify o) writes).1.heap = (mkGulpWatchify o).heap
    ∧ (mkGulpWatchify o).depsCacheRef = some 0
    ∧ (mkGulpWatchify o).packageCacheRef = some 1
    ∧ (mkGulpWatchify o).watchersRef = some 2
    ∧ ∀ res ∈ (gwRunWrites (mkGulpWatchify o) writes).2, ∀ b, res.created = some b →
        b.cacheRef = some 0 ∧ b.pkgCacheRef = some 1
        ∧ b.packageCacheRef = some 1 ∧ b.watchersRef = some 2 := by
  have hframe := gwRunWrites_frame writes (mkGulpWatchify o)
  have hd : (mkGulpWatchify o).depsCacheRef = some 0 := by simp [mkGulpWatchify, hp]
  have hpk : (mkGulpWatchify o).packageCacheRef = some 1 := by simp [mkGulpWatchify, hp]
  have hwa : (mkGulpWatchify o).watchersRef = some 2 := by simp [mkGulpWatchify, hw]
  refine ⟨hframe.1, hd, hpk, hwa, ?_⟩
  intro res hres b hb
  have := hframe.2 res hres b hb
  rw [hd, hpk, hwa] at this
  exact this

/-- Witness for C7: the default options with one successful write. -/
theorem c7_caches_shared_unmodified_witness :
    (GWOptions.default.primeCache.orBool true = true
      ∧ GWOptions.default.shareWatchers.orBool true = true)
    ∧ ((gwRunWrites (mkGulpWatchify GWOptions.default)
          [(some sampleFile, .ok "js")]).1.heap = (mkGulpWatchify GWOptions.default).heap
        ∧ (mkGulpWatchify GWOptions.default).depsCacheRef = some 0
        ∧ (mkGulpWatchify GWOptions.default).packageCacheRef = some 1
        ∧ (mkGulpWatchify GWOptions.default).watchersRef = some 2
        ∧ ∀ res ∈ (gwRunWrites (mkGulpWatchify GWOptions.default)
              [(some sampleFile, .ok "js")]).2, ∀ b, res.created = some b →
            b.cacheRef = some 0 ∧ b.pkgCacheRef = some 1
            ∧ b.packageCacheRef = some 1 ∧ b.watchersRef = some 2) :=
  And.intro (And.intro (by decide) (by decide))
    (c7_caches_shared_unmodified GWOptions.default (by decide) (by decide)
      [(some sampleFile, .ok "js")])

/-- With the rebundle option off and no timer pending, `_handleUpdate`
returns before touching anything. -/
lemma handleUpdate_off (t : Nat) (f : SrcFile) (s : DbState)
    (hr : s.rebundleOn = false) (ht : s.timers = []) :
    handleUpdate t f s = s := by
  cases s
  simp_all [handleUpdate, fireDue]

/-- C9: for an instance constructed with `rebundle: false`, handling
update events is a no-op on the rebundle machinery: the state is exactly
the freshly initialised one — no stream created, no rebundle notification
emitted, nothing written, no close timeout scheduled. -/
theorem c9_rebundle_false_noop (o : GWOptions) (h : o.rebundle = JOpt.jbool false)
    (us : List (Nat × SrcFile)) :
    runUpdates (initDebounce (mkGulpWatchify o)) us = initDebounce (mkGulpWatchify o)
    ∧ (runUpdates (initDebounce (mkGulpWatchify o)) us).log = []
    ∧ (runUpdates (initDebounce (mkGulpWatchify o)) us).timers = [] := by
  have hro : (mkGulpWatchify o).rebundleOn = false := by
    simp [mkGulpWatchify, h, JOpt.orBool]
  have key : runUpdates (initDebounce (mkGulpWatchify o)) us
      = initDebounce (mkGulpWatchify o) := by
    induction us with
    | nil => rfl
    | cons u rest ih =>
        obtain ⟨t, f⟩ := u
        simp only [runUpdates]
        rw [handleUpdate_off t f _ (by simp [initDebounce, hro]) (by simp [initDebounce])]
        exact ih
  exact ⟨key, by rw [key]; rfl, by rw [key]; rfl⟩

/-- Witness for C9: `rebundle: false` with two quick updates. -/
theorem c9_rebundle_false_noop_witness :
    ({ rebundle := JOpt.jbool false } : GWOptions).rebundle = JOpt.jbool false
    ∧ (runUpdates (initDebounce (mkGulpWatchify { rebundle := JOpt.jbool false }))
          [(0, sampleFile), (10, sampleFile)]
        = initDebounce (mkGulpWatchify { rebundle := JOpt.jbool false })
      ∧ (runUpdates (initDebounce (mkGulpWatchify { rebundle := JOpt.jbool false }))
          [(0, sampleFile), (10, sampleFile)]).log = []
      ∧ (runUpdates (initDebounce (mkGulpWatchify { rebundle := JOpt.jbool false }))
          [(0, sampleFile), (10, sampleFile)]).timers = []) :=
  And.intro (by decide)
    (c9_rebundle_false_noop { rebundle := JOpt.jbool false } (by decide)
      [(0, sampleFile), (10, sampleFile)])

/-- The pending-timer discipline: either no timeout is pending, or
exactly one is and `_rebundleTimeout` holds its handle. -/
def timersOK (s : DbState) : Prop :=
  match s.timers, s.storedTimeout with
  | [], _ => True
  | [tm], some tid => tm.tid = tid
  | _, _ => False

/-- A state satisfying the discipline has no timer or exactly the stored one. -/
lemma timersOK_cases (s : DbState) (h : timersOK s) :
    s.timers = [] ∨ ∃ tm, s.timers = [tm] ∧ s.storedTimeout = some tm.tid := by
  unfold timersOK at h
  rcases hts : s.timers with _ | ⟨tm, _ | ⟨tm2, tl⟩⟩ <;>
    rcases hst : s.storedTimeout with _ | tid <;>
    rw [hts, hst] at h <;> simp_all

/-- Firing due timers preserves the pending-timer discipline. -/
lemma timersOK_fireDue (t : Nat) (s : DbState) (h : timersOK s) :
    timersOK (fireDue t s) := by
  rcases timersOK_cases s h with hA | ⟨tm, htm, hst⟩
  · unfold timersOK
    simp [fireDue, hA]
  · unfold timersOK
    by_cases hd : tm.deadline ≤ t
    · simp [fireDue, htm, hst, hd]
    · have hd' : t < tm.deadline := Nat.lt_of_not_le hd
      simp [fireDue, htm, hst, hd, hd']

/-- After clearing the stored timeout, a disciplined state has no pending
timer at all. -/
lemma clearStored_empties (t : Nat) (s : DbState) (h : timersOK s) :
    (clearStoredTimeout (fireDue t s)).timers = [] := by
  rcases timersOK_cases s h with hA | ⟨tm, htm, hst⟩
  · rcases hst : s.storedTimeout with _ | tid <;>
      simp [clearStoredTimeout, fireDue, hA, hst]
  · by_cases hd : tm.deadline ≤ t <;>
      simp [clearStoredTimeout, fireDue, htm, hst, hd]

/-- `_handleUpdate` with the rebundle option on, written with the clear
and the match on the current stream exposed. -/
lemma handleUpdate_on (t : Nat) (f : SrcFile) (s : DbState) (hr : s.rebundleOn = true) :
    handleUpdate t f s =
      (let s2 := clearStoredTimeout (fireDue t s)
       match s2.curStream with
       | some sid =>
           scheduleClose t sid { s2 with log := s2.log ++ [DbLog.wroteTo sid f] }
       | none =>
           let sid := s2.nextStreamId
           let s3 := { s2 with
             curStream := some sid
           , nextStreamId := sid + 1
           , log := s2.log ++ [DbLog.createdStream sid, DbLog.emittedRebundle sid] }
           scheduleClose t sid { s3 with log := s3.log ++ [DbLog.wroteTo sid f] }) := by
  have h1 : (fireDue t s).rebundleOn = true := by simp [fireDue, hr]
  simp [handleUpdate, h1]

/-- Handling one update preserves the pending-timer discipline: the stored
timeout is cancelled before a new one is scheduled. -/
lemma timersOK_handleUpdate (t : Nat) (f : SrcFile) (s : DbState) (h : timersOK s) :
    timersOK (handleUpdate t f s) := by
  by_cases hr : s.rebundleOn = true
  · rw [handleUpdate_on t f s hr]
    have hcl := clearStored_empties t s h
    rcases hcs : (clearStoredTimeout (fireDue t s)).curStream with _ | sid <;>
      · unfold timersOK
        simp [hcs, scheduleClose, hcl]
  · have hr' : s.rebundleOn = false := by simpa using hr
    have : handleUpdate t f s = fireDue t s := by
      have h1 : (fireDue t s).rebundleOn = false := by simp [fireDue, hr']
      simp [handleUpdate, h1]
    rw [this]
    exact timersOK_fireDue t s h

/-- The discipline holds along any run. -/
lemma timersOK_runUpdates (us : List (Nat × SrcFile)) :
    ∀ s : DbState, timersOK s → timersOK (runUpdates s us) := by
  induction us with
  | nil => intro s h; exact h
  | cons u rest ih =>
      intro s h
      obtain ⟨t, f⟩ := u
      simp only [runUpdates]
      exact ih _ (timersOK_handleUpdate t f s h)

/-- C6: starting from a fresh instance, after any sequence of update
events at most one close timeout is pending — `_handleUpdate` always
cancels the previous one before scheduling. -/
theorem c6_at_most_one_pending_timeout (g : GWState) (us : List (Nat × SrcFile)) :
    (runUpdates (initDebounce g) us).timers.length ≤ 1 := by
  have h := timersOK_runUpdates us (initDebounce g) (by unfold timersOK; simp [initDebounce])
  rcases hts : (runUpdates (initDebounce g) us).timers with _ | ⟨a, _ | ⟨b, tl⟩⟩
  · simp
  · simp
  · unfold timersOK at h
    rw [hts] at h
    rcases hst : (runUpdates (initDebounce g) us).storedTimeout with _ | tid <;>
      rw [hst] at h <;> exact h.elim

/-- Mid-burst shape: after any update, the machinery is in a state with a
current stream `sid`, one pending close timeout at `lastT + delay`, and
the stored handle pointing at it. From there the run produces exactly the
log the burst description predicts. -/
lemma runUpdates_burst (delay : Nat) (rest : List (Nat × SrcFile))
    (sid lastT tid ntid : Nat) (log0 : List DbLog) :
    (runUpdates
      { rebundleOn := true, delay := delay, curStream := some sid
      , storedTimeout := some tid, timers := [⟨tid, lastT + delay, sid⟩]
      , nextStreamId := sid + 1, nextTimerId := ntid, log := log0 } rest).log
    = log0 ++ specBurstCont delay sid lastT rest := by
  induction rest generalizing sid lastT tid ntid log0 with
  | nil => simp [runUpdates, specBurstCont]
  | cons u rest ih =>
      obtain ⟨t', f⟩ := u
      simp only [runUpdates]
      by_cases hd : lastT + delay ≤ t'
      · have hu : handleUpdate t' f
            { rebundleOn := true, delay := delay, curStream := some sid
            , storedTimeout := some tid, timers := [⟨tid, lastT + delay, sid⟩]
            , nextStreamId := sid + 1, nextTimerId := ntid, log := log0 }
            = { rebundleOn := true, delay := delay, curStream := some (sid + 1)
              , storedTimeout := some ntid, timers := [⟨ntid, t' + delay, sid + 1⟩]
              , nextStreamId := sid + 2, nextTimerId := ntid + 1
              , log := log0 ++ [DbLog.timerFired sid, DbLog.createdStream (sid + 1)
                  , DbLog.emittedRebundle (sid + 1), DbLog.wroteTo (sid + 1) f] } := by
          simp [handleUpdate, fireDue, clearStoredTimeout, scheduleClose, hd]
        rw [hu, ih]
        rw [specBurstCont, if_neg (by omega)]
        simp
      · have hd' : t' < lastT + delay := Nat.lt_of_not_le hd
        have hu : handleUpdate t' f
            { rebundleOn := true, delay := delay, curStream := some sid
            , storedTimeout := some tid, timers := [⟨tid, lastT + delay, sid⟩]
            , nextStreamId := sid + 1, nextTimerId := ntid, log := log0 }
            = { rebundleOn := true, delay := delay, curStream := some sid
              , storedTimeout := some ntid, timers := [⟨ntid, t' + delay, sid⟩]
              , nextStreamId := sid + 1, nextTimerId := ntid + 1
              , log := log0 ++ [DbLog.wroteTo sid f] } := by
          simp [handleUpdate, fireDue, clearStoredTimeout, scheduleClose, hd, hd']
        rw [hu, ih]
        rw [specBurstCont, if_pos hd']
        simp

/-- C3: with the rebundle option on, the observable behaviour over any
sequence of timestamped updates equals the burst description: each
maximal burst of updates — consecutive gaps strictly inside the rebundle
delay — creates exactly one ReBundle stream and emits exactly one
rebundle notification at its first update, every update of the burst is
written to that same stream, and the first update at or past the expired
delay sees the old stream's close timeout fire and a fresh stream begin. -/
theorem c3_updates_coalesce_per_burst (g : GWState) (hr : g.rebundleOn = true)
    (us : List (Nat × SrcFile)) :
    (runUpdates (initDebounce g) us).log = specBurstLog g.rebundleDelay us := by
  cases us with
  | nil => rfl
  | cons u rest =>
      obtain ⟨t, f⟩ := u
      simp only [runUpdates]
      have hu : handleUpdate t f (initDebounce g)
          = { rebundleOn := true, delay := g.rebundleDelay, curStream := some 0
            , storedTimeout := some 0, timers := [⟨0, t + g.rebundleDelay, 0⟩]
            , nextStreamId := 1, nextTimerId := 1
            , log := [DbLog.createdStream 0, DbLog.emittedRebundle 0
                , DbLog.wroteTo 0 f] } := by
        simp [handleUpdate, fireDue, clearStoredTimeout, scheduleClose, initDebounce, hr]
      rw [hu]
      have := runUpdates_burst g.rebundleDelay rest 0 t 0 1
        [DbLog.createdStream 0, DbLog.emittedRebundle 0, DbLog.wroteTo 0 f]
      rw [show (0 : Nat) + 1 = 1 from rfl] at this
      rw [this, specBurstLog]
      simp

/-- Witness for C3: the default instance (delay 400) with a burst of two
updates followed, past the delay, by a second burst of one. -/
theorem c3_updates_coalesce_per_burst_witness :
    (mkGulpWatchify GWOptions.default).rebundleOn = true
    ∧ (runUpdates (initDebounce (mkGulpWatchify GWOptions.default))
          [(0, sampleFile), (100, sampleFile), (1000, sampleFile)]).log
      = specBurstLog (mkGulpWatchify GWOptions.default).rebundleDelay
          [(0, sampleFile), (100, sampleFile), (1000, sampleFile)] :=
  And.intro (by decide)
    (c3_updates_coalesce_per_burst (mkGulpWatchify GWOptions.default) (by decide)
      [(0, sampleFile), (100, sampleFile), (1000, sampleFile)])

/-- The accounting invariant of one `ReBundle` stream: `_unresolvedAsyncs`
equals the close timeout's token (still 1 until it fires), plus the
bundle invocations awaiting their callback, plus the callbacks that took
the fatal path and skipped `finishIfResolved`. -/
def rbInv (s : RBCount) : Prop :=
  s.count = (if s.timerFired then 0 else 1) + (s.outstanding : Int) + (s.fatal : Int)

/-- Each runtime event preserves the accounting invariant. -/
lemma rbInv_step (s s' : RBCount) (em : Bool) (e : RBEv)
    (h : rbInv s) (hstep : rbStep s e = some (s', em)) : rbInv s' := by
  unfold rbInv at h ⊢
  cases e with
  | transformStart =>
      simp [rbStep] at hstep
      rw [← hstep.1]
      simp
      omega
  | bundleOk =>
      rcases ho : s.outstanding with _ | o
      · simp [rbStep, ho] at hstep
      · rw [ho] at h
        simp [rbStep, ho] at hstep
        rw [← hstep.1]
        simp
        omega
  | bundleErrSkip =>
      rcases ho : s.outstanding with _ | o
      · simp [rbStep, ho] at hstep
      · rw [ho] at h
        simp [rbStep, ho] at hstep
        rw [← hstep.1]
        simp
        omega
  | bundleErrFatal =>
      rcases ho : s.outstanding with _ | o
      · simp [rbStep, ho] at hstep
      · rw [ho] at h
        simp [rbStep, ho] at hstep
        rw [← hstep.1]
        simp
        omega
  | timerFire =>
      rcases htf : s.timerFired
      · rw [htf] at h
        simp [rbStep, htf] at hstep
        rw [← hstep.1]
        simp at h ⊢
        omega
      · simp [rbStep, htf] at hstep

/-- The invariant holds after any legal run. -/
lemma rbInv_run (evs : List RBEv) :
    ∀ s s' : RBCount, rbInv s → rbRunFrom s evs = some s' → rbInv s' := by
  induction evs with
  | nil =>
      intro s s' h hr
      simp [rbRunFrom] at hr
      exact hr ▸ h
  | cons e evs ih =>
      intro s s' h hr
      simp only [rbRunFrom] at hr
      rcases hstep : rbStep s e with _ | ⟨s1, em⟩
      · rw [hstep] at hr
        exact absurd hr (by simp)
      · rw [hstep] at hr
        exact ih s1 s' (rbInv_step s s1 em e h hstep) hr

/-- C2: the ReBundle stream never ends early — whenever a step of a legal
event sequence emits the end marker (`push(null)`, i.e. a
`finishIfResolved` decrement reaches zero), at that moment the debounce
close timeout has already fired and every bundle invocation registered on
the stream has completed. -/
theorem c2_end_marker_after_timer_and_all_bundles (evs : List RBEv) (s s' : RBCount)
    (e : RBEv) (hrun : rbRunFrom rbInit evs = some s)
    (hstep : rbStep s e = some (s', true)) :
    s'.timerFired = true ∧ s'.outstanding = 0 := by
  have hinv : rbInv s := rbInv_run evs rbInit s (by simp [rbInv, rbInit]) hrun
  unfold rbInv at hinv
  cases e with
  | transformStart => simp [rbStep] at hstep
  | bundleErrFatal =>
      rcases ho : s.outstanding with _ | o <;> simp [rbStep, ho] at hstep
  | bundleOk =>
      rcases ho : s.outstanding with _ | o
      · simp [rbStep, ho] at hstep
      · rw [ho] at hinv
        simp [rbStep, ho] at hstep
        obtain ⟨hs', hem⟩ := hstep
        rw [← hs']
        rcases htf : s.timerFired <;> rw [htf] at hinv <;> simp at hinv ⊢ <;> omega
  | bundleErrSkip =>
      rcases ho : s.outstanding with _ | o
      · simp [rbStep, ho] at hstep
      · rw [ho] at hinv
        simp [rbStep, ho] at hstep
        obtain ⟨hs', hem⟩ := hstep
        rw [← hs']
        rcases htf : s.timerFired <;> rw [htf] at hinv <;> simp at hinv ⊢ <;> omega
  | timerFire =>
      rcases htf : s.timerFired
      · rw [htf] at hinv
        simp [rbStep, htf] at hstep
        obtain ⟨hs', hem⟩ := hstep
        rw [← hs']
        simp at hinv ⊢
        omega
      · simp [rbStep, htf] at hstep

/-- Witness for C2: one write, then the timeout fires, then the write's
bundle callback completes and emits the end marker. -/
theorem c2_end_marker_after_timer_and_all_bundles_witness :
    rbRunFrom rbInit [RBEv.transformStart, RBEv.timerFire]
        = some { count := 1, timerFired := true, outstanding := 1, fatal := 0 }
    ∧ rbStep { count := 1, timerFired := true, outstanding := 1, fatal := 0 }
          RBEv.bundleOk
        = some ({ count := 0, timerFired := true, outstanding := 0, fatal := 0 }, true)
    ∧ (({ count := 0, timerFired := true, outstanding := 0, fatal := 0 }
          : RBCount).timerFired = true
        ∧ ({ count := 0, timerFired := true, outstanding := 0, fatal := 0 }
          : RBCount).outstanding = 0) :=
  And.intro (by decide)
    (And.intro (by decide)
      (c2_end_marker_after_timer_and_all_bundles [RBEv.transformStart, RBEv.timerFire]
        { count := 1, timerFired := true, outstanding := 1, fatal := 0 }
        { count := 0, timerFired := true, outstanding := 0, fatal := 0 }
        RBEv.bundleOk (by decide) (by decide)))
